import Mathlib

/-!
Shallow embedding of the `PostgresMuchos` pooled query executor
(lib/postgres-muchos.js).  The promise chains of `query`, `close` and the
factory callbacks are sequentialized into pure functions producing a trace
of observable actions (pool calls, event emissions, promise settlement)
together with the updated executor state, driven by an environment record
that supplies the outcomes of the external collaborators (pool acquire,
driver execution, drain, clear).
-/

namespace PostgresMuchos

/-- The double-quote character. -/
def dquoteChar : Char := Char.ofNat 34

/-- The single-quote character. -/
def squoteChar : Char := Char.ofNat 39

/-- The backslash character. -/
def backslashChar : Char := Char.ofNat 92

/-- EmitControl: the four event gates supplied at construction
(constructor parameter `emitControl`, all absent/false by default). -/
structure EmitControl where
  connect : Bool
  disconnect : Bool
  query : Bool
  results : Bool
deriving DecidableEq, Repr

/-- The default EmitControl (`emitControl = \x7b\x7d`): every gate falsy. -/
def EmitControl.default : EmitControl :=
  { connect := false, disconnect := false, query := false, results := false }

/-- The result object the driver hands back (`results` in `_query`):
command tag, row count, field descriptors and row data.  Rows are opaque
records, modelled by identifiers. -/
structure QueryResults where
  command : String
  rowCount : Nat
  fields : List String
  rows : List Nat
deriving DecidableEq, Repr

/-- Lifecycle events emitted through the EventEmitter base class. -/
inductive Event where
  | connect (processID : Nat)
  | disconnect (processID : Nat)
  | query (sql : String) (parms : List String) (processID : Nat)
  | results (elapsedTime : Nat) (sql : String) (parms : List String)
      (data : List Nat) (processID : Nat)
deriving DecidableEq, Repr

/-- Observable actions of one `query` call, in program order: the
`pool.acquire(0)` call, the `client.query` submission, the
`pool.release(client)` call (argument `none` models a null client), an
event emission, and settlement of the returned promise. -/
inductive Action where
  | acquireCall
  | execCall (processID : Nat) (sql : String) (parms : List String)
  | releaseCall (client : Option Nat)
  | emit (e : Event)
  | settleResolve (r : QueryResults)
  | settleReject (msg : String)
deriving DecidableEq, Repr

/-- `Action.isEmit` holds exactly on event emissions. -/
def Action.isEmit : Action → Bool
  | .emit _ => true
  | _ => false

/-- `Action.isAcquire` holds exactly on the `pool.acquire` call. -/
def Action.isAcquire : Action → Bool
  | .acquireCall => true
  | _ => false

/-- `Action.isRelease` holds exactly on a `pool.release` call. -/
def Action.isRelease : Action → Bool
  | .releaseCall _ => true
  | _ => false

/-- `Action.isSettle` holds exactly on promise settlement. -/
def Action.isSettle : Action → Bool
  | .settleResolve _ => true
  | .settleReject _ => true
  | _ => false

/-- `Action.isQueryEvent` holds exactly on emission of a `query` Event. -/
def Action.isQueryEvent : Action → Bool
  | .emit (.query _ _ _) => true
  | _ => false

/-- `Action.isResultsEvent` holds exactly on emission of a `results` Event. -/
def Action.isResultsEvent : Action → Bool
  | .emit (.results _ _ _ _ _) => true
  | _ => false

/-- Mutable executor state: the `_emitControl` field (assigned once in the
constructor) and `_onErrorMessage` (initialized to null, set by the
`factoryCreateError` listener, cleared on query success).  `none` models
the JavaScript `null`. -/
structure ExecState where
  emitControl : EmitControl
  onErrorMessage : Option String
deriving DecidableEq, Repr

/-- The `factoryCreateError` listener installed in the constructor:
`err && (this._onErrorMessage = err)` — the message is stored only when
`err` is truthy (a nonempty string). -/
def onFactoryCreateError (st : ExecState) (err : String) : ExecState :=
  if err = "" then st else { st with onErrorMessage := some err }

/-- The rejection message built in `query`'s catch handler:
`\x7b err.message \x7d: \x7b this._onErrorMessage ? this._onErrorMessage : "" \x7d`.
The ternary yields the stored message when truthy (stored messages are
nonempty, see `onFactoryCreateError`) and the empty string otherwise. -/
def compositeMessage (errMsg : String) (lastErr : Option String) : String :=
  errMsg ++ ": " ++ lastErr.getD ""

/-- Environment of one `query` call: the outcome of `pool.acquire(0)`
(error message, or the acquired client's processID), the outcome of the
driver execution `client.query(sql, parms, cb)` for that call, and the
measured elapsed wall-clock time. -/
structure QueryEnv where
  acquireResult : Except String Nat
  execResult : Except String QueryResults
  elapsed : Nat
deriving Repr

/-- One `query(sql, parms)` call, sequentializing the promise chain of
`query` and `_query`: acquire; on acquire success submit to the driver;
on driver success clear `_onErrorMessage`, emit the gated `query` and
`results` events, then (back in `query`) release the client and resolve;
on driver failure the catch handler releases the client (errors swallowed)
and rejects with the composite message; on acquire failure the same catch
handler runs with `client` still null, so `pool.release(null)` is invoked
and the call rejects with the composite message. -/
def runQuery (st : ExecState) (env : QueryEnv) (sql : String)
    (parms : List String) :
    List Action × ExecState × Except String QueryResults :=
  match env.acquireResult with
  | .error e =>
      let msg := compositeMessage e st.onErrorMessage
      ([.acquireCall, .releaseCall none, .settleReject msg], st, .error msg)
  | .ok c =>
      match env.execResult with
      | .error e =>
          let msg := compositeMessage e st.onErrorMessage
          ([.acquireCall, .execCall c sql parms, .releaseCall (some c),
            .settleReject msg], st, .error msg)
      | .ok r =>
          let st' := { st with onErrorMessage := none }
          let emits :=
            (if st.emitControl.query then
              [Action.emit (.query sql parms c)] else []) ++
            (if st.emitControl.results then
              [Action.emit (.results env.elapsed sql parms r.rows c)] else [])
          ([Action.acquireCall, Action.execCall c sql parms] ++ emits ++
            [Action.releaseCall (some c), Action.settleResolve r],
           st', .ok r)

/-- The factory `create` callback: on connect failure the promise rejects
with `err.message` (the pool then fires `factoryCreateError`, handled
separately by `onFactoryCreateError`); on success a gated `connect` event
is emitted and the client is resolved. -/
def factoryCreate (st : ExecState) (res : Except String Nat) :
    List Action × Except String Nat :=
  match res with
  | .error e => ([], .error e)
  | .ok pid =>
      ((if st.emitControl.connect then [Action.emit (.connect pid)] else []),
       .ok pid)

/-- The factory `validate` callback: it issues `select 1` on the client;
on probe failure (`err`) the promise is REJECTED with the value `false`
(`reject(false)`), on success it resolves `true`.  `Except.error false`
models the rejection, `Except.ok` a resolution. -/
def factoryValidate (probe : Except String Unit) : Except Bool Bool :=
  match probe with
  | .error _ => .error false
  | .ok _ => .ok true

/-- The factory `destroy` callback: `client.end`; on failure the promise
rejects with the error; on success a gated `disconnect` event is emitted
and the promise resolves. -/
def factoryDestroy (st : ExecState) (res : Except String Unit) (pid : Nat) :
    List Action × Except String Unit :=
  match res with
  | .error e => ([], .error e)
  | .ok _ =>
      ((if st.emitControl.disconnect then
          [Action.emit (.disconnect pid)] else []),
       .ok ())

/-- One operation applied to the executor, for whole-history statements:
a `query` call, a pool-driven factory `create` or `destroy`, or the pool
firing `factoryCreateError`. -/
inductive Op where
  | opQuery (env : QueryEnv) (sql : String) (parms : List String)
  | opFactoryCreate (res : Except String Nat)
  | opFactoryDestroy (res : Except String Unit) (pid : Nat)
  | opFactoryCreateError (err : String)
deriving Repr

/-- Run one operation: the actions it produces and the state it leaves. -/
def runOp (st : ExecState) (op : Op) : List Action × ExecState :=
  match op with
  | .opQuery env sql parms =>
      let out := runQuery st env sql parms
      (out.1, out.2.1)
  | .opFactoryCreate res => ((factoryCreate st res).1, st)
  | .opFactoryDestroy res pid => ((factoryDestroy st res pid).1, st)
  | .opFactoryCreateError err => ([], onFactoryCreateError st err)

/-- Run a sequence of operations, accumulating all produced actions. -/
def runOps (st : ExecState) : List Op → List Action × ExecState
  | [] => ([], st)
  | op :: ops =>
      let fst := runOp st op
      let rest := runOps fst.2 ops
      (fst.1 ++ rest.1, rest.2)

/-- `this._FACTORY_CREATION_WAIT_PERIOD`, set in the constructor. -/
def FACTORY_CREATION_WAIT_PERIOD : Nat := 500

/-- Environment of one `close` call: the pool's
`_factoryCreateOperations.size` and the outcomes of `drain` and `clear`. -/
structure CloseEnv where
  pendingCreationCount : Nat
  drainResult : Except String Unit
  clearResult : Except String Unit
deriving Repr

/-- Observable actions of one `close` call. -/
inductive CloseAction where
  | readPending (n : Nat)
  | wait (ms : Nat)
  | drainCall
  | clearCall
  | settleOk
  | settleErr (msg : String)
deriving DecidableEq, Repr

/-- One `close()` call, sequentializing its promise chain: read the
pending-creation count, set the timeout to the grace period when it is
positive (`0` otherwise), wait, then `drain`, then `clear`, then resolve;
any rejection of `drain` or `clear` falls into the catch handler, which
rejects `close` with that error (and `clear` is never reached when
`drain` failed). -/
def runClose (env : CloseEnv) : List CloseAction × Except String Unit :=
  let timeout :=
    if env.pendingCreationCount > 0 then FACTORY_CREATION_WAIT_PERIOD else 0
  let pre := [CloseAction.readPending env.pendingCreationCount,
              CloseAction.wait timeout]
  match env.drainResult with
  | .error e => (pre ++ [.drainCall, .settleErr e], .error e)
  | .ok _ =>
      match env.clearResult with
      | .error e => (pre ++ [.drainCall, .clearCall, .settleErr e], .error e)
      | .ok _ => (pre ++ [.drainCall, .clearCall, .settleOk], .ok ())

/-- A JavaScript value as the escape helpers see it: a string, or some
non-string value (numbers and opaque object references). -/
inductive JSValue where
  | str (s : String)
  | num (n : Int)
  | obj (id : Nat)
deriving DecidableEq, Repr

/-- Character-level action of `source.replace(slashDQslashG, bsDQ)`:
each double quote becomes backslash double-quote. -/
def escDQchar (c : Char) : List Char :=
  if c = dquoteChar then [backslashChar, dquoteChar] else [c]

/-- Character-level action of `source.replace(slashSQslashG, twoSQ)`:
each single quote becomes two single quotes. -/
def escSQchar (c : Char) : List Char :=
  if c = squoteChar then [squoteChar, squoteChar] else [c]

/-- The string branch of `escapeDoubleQuotes`. -/
def escapeDoubleQuotesStr (s : String) : String :=
  String.mk (s.data.flatMap escDQchar)

/-- The string branch of `escapeSingleQuotes`. -/
def escapeSingleQuotesStr (s : String) : String :=
  String.mk (s.data.flatMap escSQchar)

/-- `static escapeDoubleQuotes(source)`: replace on strings, return the
value itself otherwise (`typeof source === 'string' ? ... : source`). -/
def escapeDoubleQuotes : JSValue → JSValue
  | .str s => .str (escapeDoubleQuotesStr s)
  | v => v

/-- `static escapeSingleQuotes(source)`: replace on strings, return the
value itself otherwise. -/
def escapeSingleQuotes : JSValue → JSValue
  | .str s => .str (escapeSingleQuotesStr s)
  | v => v

/-- The constructor's acquire-timeout defaulting:
`!poolConfig.acquireTimeoutMillis && (poolConfig.acquireTimeoutMillis = 1000)`.
`none` models an absent property; `some 0` is falsy in JavaScript. -/
def normalizeAcquireTimeout (x : Option Nat) : Option Nat :=
  match x with
  | none => some 1000
  | some n => if n = 0 then some 1000 else some n

/-! Helper lemmas shared by the theorems below. -/

theorem flatMap_escDQchar_of_no_dquote (l : List Char) (h : dquoteChar ∉ l) :
    l.flatMap escDQchar = l := by
  induction l with
  | nil => rfl
  | cons c cs ih =>
      simp only [List.mem_cons, not_or] at h
      have hc : ¬(c = dquoteChar) := fun hc => h.1 hc.symm
      simp [List.flatMap_cons, escDQchar, hc, ih h.2]

theorem flatMap_escSQchar_of_no_squote (l : List Char) (h : squoteChar ∉ l) :
    l.flatMap escSQchar = l := by
  induction l with
  | nil => rfl
  | cons c cs ih =>
      simp only [List.mem_cons, not_or] at h
      have hc : ¬(c = squoteChar) := fun hc => h.1 hc.symm
      simp [List.flatMap_cons, escSQchar, hc, ih h.2]

theorem string_mk_data (s : String) : String.mk s.data = s := rfl

/-- The concrete input of the repository's escape tests. -/
def dqTestIn : String :=
  String.mk ("quoted".data ++ [dquoteChar] ++ "likethis".data ++ [dquoteChar])

/-- The expected output of the double-quote escape test. -/
def dqTestOut : String :=
  String.mk ("quoted".data ++ [backslashChar, dquoteChar] ++
    "likethis".data ++ [backslashChar, dquoteChar])

/-- The concrete input of the single-quote escape test. -/
def sqTestIn : String :=
  String.mk ("quoted".data ++ [squoteChar] ++ "likethis".data ++ [squoteChar])

/-- The expected output of the single-quote escape test. -/
def sqTestOut : String :=
  String.mk ("quoted".data ++ [squoteChar, squoteChar] ++
    "likethis".data ++ [squoteChar, squoteChar])

/-- C9: escapeDoubleQuotes and escapeSingleQuotes return every non-string
value unchanged; on strings they replace each double quote by
backslash-double-quote (resp. each single quote by two single quotes),
acting character by character and homomorphically over concatenation, so
a string without the target character is returned equal to the input;
in particular they map the repository's test vectors as advertised. -/
theorem escape_helpers_correct :
    (∀ n : Int, escapeDoubleQuotes (.num n) = .num n ∧
        escapeSingleQuotes (.num n) = .num n) ∧
    (∀ k : Nat, escapeDoubleQuotes (.obj k) = .obj k ∧
        escapeSingleQuotes (.obj k) = .obj k) ∧
    (∀ s : String, dquoteChar ∉ s.data → escapeDoubleQuotesStr s = s) ∧
    (∀ s : String, squoteChar ∉ s.data → escapeSingleQuotesStr s = s) ∧
    (∀ s t : String, escapeDoubleQuotesStr (s ++ t) =
        escapeDoubleQuotesStr s ++ escapeDoubleQuotesStr t) ∧
    (∀ s t : String, escapeSingleQuotesStr (s ++ t) =
        escapeSingleQuotesStr s ++ escapeSingleQuotesStr t) ∧
    (escapeDoubleQuotesStr (String.mk [dquoteChar]) =
        String.mk [backslashChar, dquoteChar]) ∧
    (escapeSingleQuotesStr (String.mk [squoteChar]) =
        String.mk [squoteChar, squoteChar]) ∧
    (∀ c : Char, c ≠ dquoteChar →
        escapeDoubleQuotesStr (String.mk [c]) = String.mk [c]) ∧
    (∀ c : Char, c ≠ squoteChar →
        escapeSingleQuotesStr (String.mk [c]) = String.mk [c]) ∧
    escapeDoubleQuotes (.str dqTestIn) = .str dqTestOut ∧
    escapeSingleQuotes (.str sqTestIn) = .str sqTestOut := by
  refine ⟨fun n => ⟨rfl, rfl⟩, fun k => ⟨rfl, rfl⟩, ?_, ?_, ?_, ?_, ?_, ?_,
    ?_, ?_, ?_, ?_⟩
  · intro s h
    unfold escapeDoubleQuotesStr
    rw [flatMap_escDQchar_of_no_dquote s.data h, string_mk_data]
  · intro s h
    unfold escapeSingleQuotesStr
    rw [flatMap_escSQchar_of_no_squote s.data h, string_mk_data]
  · intro s t
    cases s with
    | mk ds =>
        cases t with
        | mk dt =>
            show String.mk ((ds ++ dt).flatMap escDQchar) = _
            rw [List.flatMap_append]
            rfl
  · intro s t
    cases s with
    | mk ds =>
        cases t with
        | mk dt =>
            show String.mk ((ds ++ dt).flatMap escSQchar) = _
            rw [List.flatMap_append]
            rfl
  · decide
  · decide
  · intro c h
    unfold escapeDoubleQuotesStr
    simp [escDQchar, h]
  · intro c h
    unfold escapeSingleQuotesStr
    simp [escSQchar, h]
  · decide
  · decide

/-- C9 witness: the theorem applied at the repository's concrete test
inputs, discharging the no-target-character and not-the-target-character
hypotheses there. -/
theorem escape_helpers_correct_witness :
    escapeDoubleQuotesStr "nodoublequotes" = "nodoublequotes" ∧
    escapeSingleQuotesStr "nosinglequotes" = "nosinglequotes" ∧
    escapeDoubleQuotes (.num 7) = .num 7 ∧
    escapeDoubleQuotesStr (String.mk [Char.ofNat 97]) =
      String.mk [Char.ofNat 97] :=
  ⟨escape_helpers_correct.2.2.1 "nodoublequotes" (by decide),
   escape_helpers_correct.2.2.2.1 "nosinglequotes" (by decide),
   (escape_helpers_correct.1 7).1,
   escape_helpers_correct.2.2.2.2.2.2.2.2.1 (Char.ofNat 97) (by decide)⟩

/-- C10: a missing or zero (falsy) `acquireTimeoutMillis` is replaced by
1000 before the pool is created, so an explicitly supplied 0 is silently
replaced by 1000, while any nonzero value is kept. -/
theorem acquireTimeout_defaulting :
    normalizeAcquireTimeout none = some 1000 ∧
    normalizeAcquireTimeout (some 0) = some 1000 ∧
    ∀ n : Nat, n ≠ 0 → normalizeAcquireTimeout (some n) = some n := by
  refine ⟨rfl, rfl, fun n h => ?_⟩
  simp [normalizeAcquireTimeout, h]

/-- C10 witness: the theorem applied at the concrete nonzero value 250. -/
theorem acquireTimeout_defaulting_witness :
    normalizeAcquireTimeout none = some 1000 ∧
    normalizeAcquireTimeout (some 0) = some 1000 ∧
    normalizeAcquireTimeout (some 250) = some 250 :=
  ⟨acquireTimeout_defaulting.1, acquireTimeout_defaulting.2.1,
   acquireTimeout_defaulting.2.2 250 (by decide)⟩

/-- C6 counterexample: when the liveness probe fails, `validate` does not
resolve the boolean false — it REJECTS the promise with the value false
(`reject(false)`), contradicting the claim that probe failure is reported
as a false return value, not as a rejection. -/
theorem validate_claim_counterexample :
    factoryValidate (Except.error "probe failed") ≠ Except.ok false ∧
    factoryValidate (Except.error "probe failed") = Except.error false := by
  refine ⟨?_, rfl⟩
  intro h
  exact Except.noConfusion h

/-- C6 amended: `validate` resolves `true` when the probe succeeds, and on
probe failure it rejects the promise carrying the value `false` (it never
resolves `false`). -/
theorem validate_behavior (probe : Except String Unit) :
    (∀ u, probe = Except.ok u → factoryValidate probe = Except.ok true) ∧
    (∀ e, probe = Except.error e → factoryValidate probe = Except.error false) := by
  constructor
  · intro u h; rw [h]; rfl
  · intro e h; rw [h]; rfl

/-- C6 witness: the amended theorem applied to a succeeding probe and to a
failing probe. -/
theorem validate_behavior_witness :
    factoryValidate (Except.ok ()) = Except.ok true ∧
    factoryValidate (Except.error "down") = Except.error false :=
  ⟨(validate_behavior (Except.ok ())).1 () rfl,
   (validate_behavior (Except.error "down")).2 "down" rfl⟩

/-- C2: `close` reads the pending-creation count, waits 500 ms exactly when
it is nonzero (a zero timeout otherwise), then drains, then clears, then
resolves; a drain failure rejects `close` with that error and skips clear;
a clear failure rejects `close` with that error; there is no retry (each
pool call appears exactly once in the trace). -/
theorem close_sequence (env : CloseEnv) :
    (∀ e, env.drainResult = Except.error e →
      runClose env =
        ([CloseAction.readPending env.pendingCreationCount,
          CloseAction.wait (if env.pendingCreationCount > 0 then 500 else 0),
          CloseAction.drainCall, CloseAction.settleErr e], Except.error e)) ∧
    (∀ e, env.drainResult = Except.ok () → env.clearResult = Except.error e →
      runClose env =
        ([CloseAction.readPending env.pendingCreationCount,
          CloseAction.wait (if env.pendingCreationCount > 0 then 500 else 0),
          CloseAction.drainCall, CloseAction.clearCall,
          CloseAction.settleErr e], Except.error e)) ∧
    (env.drainResult = Except.ok () → env.clearResult = Except.ok () →
      runClose env =
        ([CloseAction.readPending env.pendingCreationCount,
          CloseAction.wait (if env.pendingCreationCount > 0 then 500 else 0),
          CloseAction.drainCall, CloseAction.clearCall,
          CloseAction.settleOk], Except.ok ())) := by
  obtain ⟨n, dr, cr⟩ := env
  refine ⟨fun e he => ?_, fun e hd hc => ?_, fun hd hc => ?_⟩
  · cases he
    simp [runClose, FACTORY_CREATION_WAIT_PERIOD]
  · cases hd; cases hc
    simp [runClose, FACTORY_CREATION_WAIT_PERIOD]
  · cases hd; cases hc
    simp [runClose, FACTORY_CREATION_WAIT_PERIOD]

/-- C2 witness: with two pending creations and a failing drain, `close`
waits the 500 ms grace period, drains, skips clear and rejects with the
drain error; with no pending creations and healthy drain and clear it
waits zero and resolves after drain then clear. -/
theorem close_sequence_witness :
    runClose ⟨2, Except.error "drain failed", Except.ok ()⟩ =
      ([CloseAction.readPending 2, CloseAction.wait 500,
        CloseAction.drainCall, CloseAction.settleErr "drain failed"],
       Except.error "drain failed") ∧
    runClose ⟨0, Except.ok (), Except.ok ()⟩ =
      ([CloseAction.readPending 0, CloseAction.wait 0,
        CloseAction.drainCall, CloseAction.clearCall, CloseAction.settleOk],
       Except.ok ()) :=
  ⟨by
    have h := (close_sequence ⟨2, Except.error "drain failed", Except.ok ()⟩).1
      "drain failed" rfl
    simpa using h,
   by
    have h := (close_sequence ⟨0, Except.ok (), Except.ok ()⟩).2.2 rfl rfl
    simpa using h⟩

/-- C1: in every `query` call that acquires a resource, whatever the
driver outcome, the trace is acquire, then the driver submission, then
zero or more event emissions, then exactly one release of the acquired
client, then settlement — so exactly one acquire and one release occur,
acquire strictly precedes execution, execution strictly precedes release,
and the release is invoked before the promise settles (settlement is the
last action). -/
theorem query_acquire_release_discipline (st : ExecState) (env : QueryEnv)
    (sql : String) (parms : List String) (c : Nat)
    (h : env.acquireResult = Except.ok c) :
    ∃ emits settle,
      (∀ a ∈ emits, a.isEmit = true) ∧ Action.isSettle settle = true ∧
      (runQuery st env sql parms).1 =
        [Action.acquireCall, Action.execCall c sql parms] ++ emits ++
          [Action.releaseCall (some c), settle] ∧
      (runQuery st env sql parms).1.countP Action.isAcquire = 1 ∧
      (runQuery st env sql parms).1.countP Action.isRelease = 1 := by
  obtain ⟨ar, er, el⟩ := env
  simp only at h
  subst h
  cases er with
  | error e =>
      refine ⟨[], Action.settleReject (compositeMessage e st.onErrorMessage),
        by simp, rfl, ?_, ?_, ?_⟩ <;>
        simp [runQuery, List.countP_cons, Action.isAcquire, Action.isRelease]
  | ok r =>
      cases hq : st.emitControl.query <;> cases hr : st.emitControl.results
      · refine ⟨[], Action.settleResolve r, by simp, rfl, ?_, ?_, ?_⟩ <;>
          simp [runQuery, hq, hr, List.countP_cons,
            Action.isAcquire, Action.isRelease]
      · refine ⟨[Action.emit (.results el sql parms r.rows c)],
          Action.settleResolve r, by simp [Action.isEmit], rfl, ?_, ?_, ?_⟩ <;>
          simp [runQuery, hq, hr, List.countP_cons,
            Action.isAcquire, Action.isRelease]
      · refine ⟨[Action.emit (.query sql parms c)],
          Action.settleResolve r, by simp [Action.isEmit], rfl, ?_, ?_, ?_⟩ <;>
          simp [runQuery, hq, hr, List.countP_cons,
            Action.isAcquire, Action.isRelease]
      · refine ⟨[Action.emit (.query sql parms c),
          Action.emit (.results el sql parms r.rows c)],
          Action.settleResolve r, by simp [Action.isEmit], rfl, ?_, ?_, ?_⟩ <;>
          simp [runQuery, hq, hr, List.countP_cons,
            Action.isAcquire, Action.isRelease]

/-- The executor state used by concrete query-path witnesses. -/
def wSt : ExecState := { emitControl := EmitControl.default, onErrorMessage := none }

/-- C1 witness: the theorem applied at a concrete call that acquires
client 7 and whose driver execution fails. -/
theorem query_acquire_release_discipline_witness :
    ∃ emits settle,
      (∀ a ∈ emits, a.isEmit = true) ∧ Action.isSettle settle = true ∧
      (runQuery wSt ⟨Except.ok 7, Except.error "boom", 0⟩ "select 1" []).1 =
        [Action.acquireCall, Action.execCall 7 "select 1" []] ++ emits ++
          [Action.releaseCall (some 7), settle] ∧
      (runQuery wSt ⟨Except.ok 7, Except.error "boom", 0⟩
        "select 1" []).1.countP Action.isAcquire = 1 ∧
      (runQuery wSt ⟨Except.ok 7, Except.error "boom", 0⟩
        "select 1" []).1.countP Action.isRelease = 1 :=
  query_acquire_release_discipline wSt ⟨Except.ok 7, Except.error "boom", 0⟩
    "select 1" [] 7 rfl

/-- C3 counterexample: with no LastFactoryError stored, a driver failure
with message "boom" is rejected as "boom: " — the separator ": " is
always appended — and not as the bare message "boom" the claim's "empty
suffix (nothing appended)" reading requires. -/
theorem query_reject_message_counterexample :
    (runQuery wSt ⟨Except.ok 5, Except.error "boom", 0⟩ "select 1" []).2.2 =
      Except.error "boom: " ∧
    (runQuery wSt ⟨Except.ok 5, Except.error "boom", 0⟩ "select 1" []).2.2 ≠
      Except.error "boom" := by
  constructor
  · rfl
  · intro h
    have : "boom: " = "boom" := Except.error.inj h
    simp at this

/-- C3 amended: every failing `query` call rejects with the failing
operation's error message, followed by the separator ": ", followed by
the stored LastFactoryError when one is present and the empty string
otherwise. -/
theorem query_reject_message (st : ExecState) (env : QueryEnv) (sql : String)
    (parms : List String) :
    (∀ e, env.acquireResult = Except.error e →
      (runQuery st env sql parms).2.2 =
        Except.error (e ++ ": " ++ st.onErrorMessage.getD "")) ∧
    (∀ c e, env.acquireResult = Except.ok c →
      env.execResult = Except.error e →
      (runQuery st env sql parms).2.2 =
        Except.error (e ++ ": " ++ st.onErrorMessage.getD "")) := by
  obtain ⟨ar, er, el⟩ := env
  constructor
  · intro e he
    simp only at he
    subst he
    rfl
  · intro c e hc he
    simp only at hc he
    subst hc; subst he
    rfl

/-- C3 witness: the amended theorem applied with a stored LastFactoryError
"factory down" and a driver error "boom": the rejection is
"boom: factory down"; and with no stored error the rejection is "boom: ". -/
theorem query_reject_message_witness :
    (runQuery ⟨EmitControl.default, some "factory down"⟩
      ⟨Except.ok 5, Except.error "boom", 0⟩ "select 1" []).2.2 =
      Except.error "boom: factory down" ∧
    (runQuery wSt ⟨Except.error "timed out", Except.ok ⟨"SELECT", 0, [], []⟩, 0⟩
      "select 1" []).2.2 = Except.error "timed out: " :=
  ⟨(query_reject_message ⟨EmitControl.default, some "factory down"⟩
      ⟨Except.ok 5, Except.error "boom", 0⟩ "select 1" []).2 5 "boom" rfl rfl,
   (query_reject_message wSt
      ⟨Except.error "timed out", Except.ok ⟨"SELECT", 0, [], []⟩, 0⟩
      "select 1" []).1 "timed out" rfl⟩

/-- C4 counterexample: when acquire fails, the shared catch handler still
invokes `pool.release` with the null client before rejecting — the trace
of a concrete acquire-failure call contains a release call (of `none`)
strictly before the rejection, so it is false that no release is invoked
on the pool before the call rejects. -/
theorem query_acquire_failure_counterexample :
    (runQuery wSt ⟨Except.error "timed out", Except.ok ⟨"SELECT", 0, [], []⟩, 0⟩
      "select 1" []).1 =
      [Action.acquireCall, Action.releaseCall none,
        Action.settleReject "timed out: "] ∧
    (runQuery wSt ⟨Except.error "timed out", Except.ok ⟨"SELECT", 0, [], []⟩, 0⟩
      "select 1" []).1.countP Action.isRelease ≠ 0 := by
  constructor
  · rfl
  · decide

/-- C4 amended: on acquire failure the call rejects with the composite
message policy, but a release IS invoked on the pool — with the
still-null client (its failure is swallowed) — before the rejection; no
driver execution happens and the state is unchanged. -/
theorem query_acquire_failure_behavior (st : ExecState) (env : QueryEnv)
    (sql : String) (parms : List String) (e : String)
    (h : env.acquireResult = Except.error e) :
    (runQuery st env sql parms).1 =
      [Action.acquireCall, Action.releaseCall none,
        Action.settleReject (e ++ ": " ++ st.onErrorMessage.getD "")] ∧
    (runQuery st env sql parms).2.2 =
      Except.error (e ++ ": " ++ st.onErrorMessage.getD "") ∧
    (runQuery st env sql parms).2.1 = st := by
  obtain ⟨ar, er, el⟩ := env
  simp only at h
  subst h
  exact ⟨rfl, rfl, rfl⟩

/-- C4 witness: the amended theorem applied at a concrete acquire
failure. -/
theorem query_acquire_failure_behavior_witness :
    (runQuery wSt ⟨Except.error "no resource", Except.ok ⟨"SELECT", 0, [], []⟩, 0⟩
      "select 2" []).1 =
      [Action.acquireCall, Action.releaseCall none,
        Action.settleReject "no resource: "] ∧
    (runQuery wSt ⟨Except.error "no resource", Except.ok ⟨"SELECT", 0, [], []⟩, 0⟩
      "select 2" []).2.2 = Except.error "no resource: " ∧
    (runQuery wSt ⟨Except.error "no resource", Except.ok ⟨"SELECT", 0, [], []⟩, 0⟩
      "select 2" []).2.1 = wSt :=
  query_acquire_failure_behavior wSt
    ⟨Except.error "no resource", Except.ok ⟨"SELECT", 0, [], []⟩, 0⟩
    "select 2" [] "no resource" rfl

/-- C5: a `query` call whose driver execution fails emits no event at all
— in particular no `query` and no `results` Event — whatever the
EmitControl gates are (the quantification over `st` covers both gates
true); events appear only on the success path, after the submission. -/
theorem query_failure_no_events (st : ExecState) (env : QueryEnv)
    (sql : String) (parms : List String) (c : Nat) (e : String)
    (hc : env.acquireResult = Except.ok c)
    (he : env.execResult = Except.error e) :
    ∀ a ∈ (runQuery st env sql parms).1, a.isEmit = false := by
  obtain ⟨ar, er, el⟩ := env
  simp only at hc he
  subst hc; subst he
  intro a ha
  simp only [runQuery, List.mem_cons, List.not_mem_nil, or_false] at ha
  rcases ha with rfl | rfl | rfl | rfl <;> rfl

/-- C5 witness: a concrete failing execution with every gate enabled
produces a trace with no emission. -/
theorem query_failure_no_events_witness :
    (runQuery ⟨⟨true, true, true, true⟩, none⟩
      ⟨Except.ok 9, Except.error "syntax error", 3⟩
      "select x" ["p"]).1.countP Action.isEmit = 0 := by
  have h := query_failure_no_events ⟨⟨true, true, true, true⟩, none⟩
    ⟨Except.ok 9, Except.error "syntax error", 3⟩ "select x" ["p"] 9
    "syntax error" rfl rfl
  exact List.countP_eq_zero.mpr fun a ha => by simp [h a ha]

/-- C7: a successful `query` clears LastFactoryError (the final state's
`_onErrorMessage` is `none`, whatever was stored before), and the
`factoryCreateError` listener stores the pool's creation error message
whenever the pool reports one (a truthy, i.e. nonempty, message). -/
theorem lastFactoryError_lifecycle (st : ExecState) (env : QueryEnv)
    (sql : String) (parms : List String) (c : Nat) (r : QueryResults)
    (err : String) (hc : env.acquireResult = Except.ok c)
    (hr : env.execResult = Except.ok r) (hne : err ≠ "") :
    (runQuery st env sql parms).2.1.onErrorMessage = none ∧
    (onFactoryCreateError st err).onErrorMessage = some err := by
  obtain ⟨ar, er, el⟩ := env
  simp only at hc hr
  subst hc; subst hr
  exact ⟨rfl, by simp [onFactoryCreateError, hne]⟩

/-- C7 witness: the theorem applied where a prior create failure had set
LastFactoryError to "factory down": after the successful call the state
is clear, and the listener stores a fresh nonempty message. -/
theorem lastFactoryError_lifecycle_witness :
    (runQuery ⟨EmitControl.default, some "factory down"⟩
      ⟨Except.ok 4, Except.ok ⟨"SELECT", 1, ["one"], [11]⟩, 2⟩
      "select 1" []).2.1.onErrorMessage = none ∧
    (onFactoryCreateError ⟨EmitControl.default, some "factory down"⟩
      "fresh failure").onErrorMessage = some "fresh failure" :=
  lastFactoryError_lifecycle ⟨EmitControl.default, some "factory down"⟩
    ⟨Except.ok 4, Except.ok ⟨"SELECT", 1, ["one"], [11]⟩, 2⟩
    "select 1" [] 4 ⟨"SELECT", 1, ["one"], [11]⟩ "fresh failure" rfl rfl
    (by decide)

theorem runOp_emitControl (st : ExecState) (op : Op) :
    (runOp st op).2.emitControl = st.emitControl := by
  cases op with
  | opQuery env sql parms =>
      obtain ⟨ar, er, el⟩ := env
      cases ar <;> cases er <;> simp [runOp, runQuery]
  | opFactoryCreate res => rfl
  | opFactoryDestroy res pid => rfl
  | opFactoryCreateError err =>
      simp only [runOp, onFactoryCreateError]
      split <;> rfl

theorem runOp_no_events_of_default (st : ExecState) (op : Op)
    (h : st.emitControl = EmitControl.default) :
    ∀ a ∈ (runOp st op).1, a.isEmit = false := by
  cases op with
  | opQuery env sql parms =>
      obtain ⟨ar, er, el⟩ := env
      cases ar with
      | error e => simp [runOp, runQuery, Action.isEmit]
      | ok c =>
          cases er with
          | error e => simp [runOp, runQuery, Action.isEmit]
          | ok r =>
              simp [runOp, runQuery, h, EmitControl.default, Action.isEmit]
  | opFactoryCreate res =>
      cases res with
      | error e => simp [runOp, factoryCreate]
      | ok pid => simp [runOp, factoryCreate, h, EmitControl.default]
  | opFactoryDestroy res pid =>
      cases res with
      | error e => simp [runOp, factoryDestroy]
      | ok u => simp [runOp, factoryDestroy, h, EmitControl.default]
  | opFactoryCreateError err => simp [runOp]

theorem runOp_no_query_events (st : ExecState) (op : Op)
    (h : st.emitControl.query = false) :
    ∀ a ∈ (runOp st op).1, a.isQueryEvent = false := by
  cases op with
  | opQuery env sql parms =>
      obtain ⟨ar, er, el⟩ := env
      cases ar with
      | error e => simp [runOp, runQuery, Action.isQueryEvent]
      | ok c =>
          cases er with
          | error e => simp [runOp, runQuery, Action.isQueryEvent]
          | ok r =>
              cases hr : st.emitControl.results <;>
                simp [runOp, runQuery, h, hr, Action.isQueryEvent]
  | opFactoryCreate res =>
      cases res with
      | error e => simp [runOp, factoryCreate]
      | ok pid =>
          cases hg : st.emitControl.connect <;>
            simp [runOp, factoryCreate, hg, Action.isQueryEvent]
  | opFactoryDestroy res pid =>
      cases res with
      | error e => simp [runOp, factoryDestroy]
      | ok u =>
          cases hg : st.emitControl.disconnect <;>
            simp [runOp, factoryDestroy, hg, Action.isQueryEvent]
  | opFactoryCreateError err => simp [runOp]

/-- C8: over every sequence of operations (queries, factory creates and
destroys, factoryCreateError notifications), the EmitControl recorded at
construction is never modified; when it is the default (all gates false)
no event of any kind is ever emitted; and whenever the `query` gate is
false no `query` Event is ever emitted. -/
theorem emitControl_immutable_and_gating (st : ExecState) (ops : List Op) :
    (runOps st ops).2.emitControl = st.emitControl ∧
    (st.emitControl = EmitControl.default →
      ∀ a ∈ (runOps st ops).1, a.isEmit = false) ∧
    (st.emitControl.query = false →
      ∀ a ∈ (runOps st ops).1, a.isQueryEvent = false) := by
  induction ops generalizing st with
  | nil =>
      exact ⟨rfl, fun _ a ha => absurd ha (List.not_mem_nil a),
        fun _ a ha => absurd ha (List.not_mem_nil a)⟩
  | cons op ops ih =>
      obtain ⟨ih1, ih2, ih3⟩ := ih (runOp st op).2
      have hec := runOp_emitControl st op
      refine ⟨?_, ?_, ?_⟩
      · simp only [runOps]
        rw [ih1, hec]
      · intro hd a ha
        simp only [runOps, List.mem_append] at ha
        rcases ha with ha | ha
        · exact runOp_no_events_of_default st op hd a ha
        · exact ih2 (by rw [hec, hd]) a ha
      · intro hq a ha
        simp only [runOps, List.mem_append] at ha
        rcases ha with ha | ha
        · exact runOp_no_query_events st op hq a ha
        · exact ih3 (by rw [hec, hq]) a ha

/-- A concrete history: a create, a successful query, a creation failure
notification, a failing query, and a destroy. -/
def wOps : List Op :=
  [Op.opFactoryCreate (Except.ok 3),
   Op.opQuery ⟨Except.ok 3, Except.ok ⟨"SELECT", 1, ["one"], [11]⟩, 1⟩
     "select 1" [],
   Op.opFactoryCreateError "factory down",
   Op.opQuery ⟨Except.ok 3, Except.error "boom", 1⟩ "select 2" [],
   Op.opFactoryDestroy (Except.ok ()) 3]

/-- C8 witness: the theorem applied to a default-gated executor and the
concrete history `wOps`, discharging both gate hypotheses there. -/
theorem emitControl_immutable_and_gating_witness :
    (runOps wSt wOps).2.emitControl = wSt.emitControl ∧
    (runOps wSt wOps).1.countP Action.isEmit = 0 ∧
    (runOps wSt wOps).1.countP Action.isQueryEvent = 0 := by
  have h := emitControl_immutable_and_gating wSt wOps
  refine ⟨h.1, ?_, ?_⟩
  · exact List.countP_eq_zero.mpr fun a ha => by simp [h.2.1 rfl a ha]
  · exact List.countP_eq_zero.mpr fun a ha => by simp [h.2.2 rfl a ha]

end PostgresMuchos
